import Mathlib

/-!
Shallow embedding of the nodejs-monitoring agent (MonitoringService,
RequestTracker, BuiltInProbes) and proofs about its specification.

Numbers coming from the JavaScript runtime (`number`) are modelled as `ℚ`
where fractional values can arise (probe readings, thresholds, rates) and as
`Int` where the source only ever produces integers (counters, millisecond
timestamps from Date.now, Math.round results).
-/

namespace NodeMonitoring

/-- Tri-state probe status, from `ProbeResult.status` in types.ts. -/
inductive ProbeStatus where
  | healthy
  | warning
  | critical
deriving DecidableEq, Repr

/-- ProbeResult from types.ts: status plus optional message and numeric value.
The open-ended `metadata` bag is not needed by any claim and is omitted. -/
structure ProbeResult where
  status : ProbeStatus
  message : Option String := none
  value : Option ℚ := none
deriving DecidableEq, Repr

/-- The probe result table (`Map<string, ProbeResult>` in MonitoringService),
modelled as an association list in insertion order, at most one entry per key. -/
abbrev ProbeTable := List (String × ProbeResult)

/-- MonitoringService.getOverallStatus: maps the table to its statuses and
returns critical if any is critical, else warning if any is warning, else
healthy. -/
def getOverallStatus (probes : ProbeTable) : ProbeStatus :=
  let statuses := probes.map fun p => p.2.status
  if ProbeStatus.critical ∈ statuses then ProbeStatus.critical
  else if ProbeStatus.warning ∈ statuses then ProbeStatus.warning
  else ProbeStatus.healthy

/-- healthCheckHandler's HTTP status choice:
`res.status(overallStatus === "healthy" ? 200 : 503)`. -/
def healthHttpStatus (overallStatus : ProbeStatus) : Nat :=
  if overallStatus = ProbeStatus.healthy then 200 else 503

/-- Check function of BuiltInProbes.createMemoryProbe (threshold default 80):
critical when the memory percentage reading exceeds the threshold, warning when
it exceeds 0.8 × threshold, healthy otherwise.  The reading
(`getMemoryMetrics().percentage`) is passed in as `percentage`. -/
def memoryProbeCheck (threshold : ℚ) (percentage : ℚ) : ProbeResult :=
  let usage := percentage
  if usage > threshold then
    { status := ProbeStatus.critical
      message := some ("Memory usage is " ++ toString usage ++ "% (threshold: "
        ++ toString threshold ++ "%)")
      value := some usage }
  else if usage > threshold * (8 / 10) then
    { status := ProbeStatus.warning
      message := some ("Memory usage is " ++ toString usage ++ "% (approaching threshold)")
      value := some usage }
  else
    { status := ProbeStatus.healthy
      message := some ("Memory usage is " ++ toString usage ++ "%")
      value := some usage }

/-- Check function of BuiltInProbes.createCpuProbe (threshold default 80): the
same threshold logic applied to the CPU usage reading
(`getCpuMetrics().usage`). -/
def cpuProbeCheck (threshold : ℚ) (usage : ℚ) : ProbeResult :=
  if usage > threshold then
    { status := ProbeStatus.critical
      message := some ("CPU usage is " ++ toString usage ++ "% (threshold: "
        ++ toString threshold ++ "%)")
      value := some usage }
  else if usage > threshold * (8 / 10) then
    { status := ProbeStatus.warning
      message := some ("CPU usage is " ++ toString usage ++ "% (approaching threshold)")
      value := some usage }
  else
    { status := ProbeStatus.healthy
      message := some ("CPU usage is " ++ toString usage ++ "%")
      value := some usage }

/-- Bounded rolling window push, the `push` / `if (length > 100) shift()`
pattern used for `requestTimes`, `errorTimes` and `metricsHistory` (capacity
100 in all three places). -/
def boundedPush {α : Type} (w : List α) (x : α) : List α :=
  let w2 := w ++ [x]
  if w2.length > 100 then w2.tail else w2

/-- RequestTracker's mutable state (collectors/RequestTracker.ts).  All
counters start at 0 and both windows start empty, as in the class field
initializers. -/
structure RequestTracker where
  totalRequests : Int := 0
  activeRequests : Int := 0
  totalResponseTime : Int := 0
  errors : Int := 0
  requestTimes : List Int := []
  errorTimes : List Int := []
deriving DecidableEq, Repr

/-- A fresh RequestTracker, as produced by its constructor. -/
def initialTracker : RequestTracker := {}

/-- RequestTracker.startRequest: increments the total and active counters.
The source also returns an opaque correlation token built from Date.now and
Math.random; the token's text is nondeterministic and unused by the state, so
only the state transition is embedded. -/
def RequestTracker.startRequest (t : RequestTracker) : RequestTracker :=
  { t with
    totalRequests := t.totalRequests + 1
    activeRequests := t.activeRequests + 1 }

/-- RequestTracker.endRequest: decrements the active counter (with no guard
and no validation of `requestId`), adds the elapsed time `now - startTime` to
the running total, and pushes it onto the bounded latency window. -/
def RequestTracker.endRequest (t : RequestTracker) (requestId : String)
    (startTime now : Int) : RequestTracker :=
  let _ := requestId
  let responseTime := now - startTime
  { t with
    activeRequests := t.activeRequests - 1
    totalResponseTime := t.totalResponseTime + responseTime
    requestTimes := boundedPush t.requestTimes responseTime }

/-- RequestTracker.recordError: increments the error counter and pushes the
current timestamp onto the bounded error-time window. -/
def RequestTracker.recordError (t : RequestTracker) (now : Int) : RequestTracker :=
  { t with
    errors := t.errors + 1
    errorTimes := boundedPush t.errorTimes now }

/-- JavaScript `Math.round`: round half toward positive infinity. -/
def jsRound (q : ℚ) : Int := Int.floor (q + 1 / 2)

/-- Shape of RequestTracker.getMetrics's `errors` sub-object. -/
structure ErrorMetrics where
  total : Int
  rate : ℚ
deriving DecidableEq, Repr

/-- Shape of the object returned by RequestTracker.getMetrics. -/
structure RequestMetrics where
  total : Int
  active : Int
  averageResponseTime : Int
  errors : ErrorMetrics
deriving DecidableEq, Repr

/-- RequestTracker.getMetrics: average response time is Math.round of the mean
of the latency window (0 when empty); the error rate is the number of stored
error timestamps strictly newer than `now - 5 * 60 * 1000`, divided by 5. -/
def RequestTracker.getMetrics (t : RequestTracker) (now : Int) : RequestMetrics :=
  let fiveMinutesAgo := now - 5 * 60 * 1000
  let recentErrors := t.errorTimes.filter fun time => fiveMinutesAgo < time
  { total := t.totalRequests
    active := t.activeRequests
    averageResponseTime :=
      if 0 < t.requestTimes.length then
        jsRound ((t.requestTimes.sum : ℚ) / (t.requestTimes.length : ℚ))
      else 0
    errors :=
      { total := t.errors
        rate := (recentErrors.length : ℚ) / 5 } }

/-- One call arriving at the RequestTracker from the host framework: either
`startRequest()` or `endRequest(requestId, startTime)` observed at time
`now`. -/
inductive TrackerEvent where
  | startReq
  | endReq (requestId : String) (startTime now : Int)

/-- Apply one tracker event to the tracker state. -/
def applyEvent (t : RequestTracker) (e : TrackerEvent) : RequestTracker :=
  match e with
  | TrackerEvent.startReq => t.startRequest
  | TrackerEvent.endReq id s n => t.endRequest id s n

/-- Run a finite sequence of tracker events from a given state. -/
def runEvents (es : List TrackerEvent) (t : RequestTracker) : RequestTracker :=
  es.foldl applyEvent t

/-- Number of startRequest calls in an event sequence. -/
def countStart : List TrackerEvent → Nat
  | [] => 0
  | TrackerEvent.startReq :: es => countStart es + 1
  | TrackerEvent.endReq _ _ _ :: es => countStart es

/-- Number of endRequest calls in an event sequence. -/
def countEnd : List TrackerEvent → Nat
  | [] => 0
  | TrackerEvent.startReq :: es => countEnd es
  | TrackerEvent.endReq _ _ _ :: es => countEnd es + 1

/-- Heap sub-object of the memory metrics (types.ts HealthMetrics.memory.heap). -/
structure MemoryHeap where
  used : ℚ
  total : ℚ
  percentage : ℚ
deriving DecidableEq, Repr

/-- Memory metrics (types.ts HealthMetrics.memory). -/
structure MemoryMetrics where
  used : ℚ
  total : ℚ
  percentage : ℚ
  heap : MemoryHeap
deriving DecidableEq, Repr

/-- CPU metrics (types.ts HealthMetrics.cpu). -/
structure CpuMetrics where
  usage : ℚ
  loadAverage : List ℚ
deriving DecidableEq, Repr

/-- Process identity metrics (types.ts HealthMetrics.process). -/
structure ProcessMetrics where
  pid : Int
  version : String
  platform : String
  arch : String
deriving DecidableEq, Repr

/-- Request sub-object of a snapshot (types.ts HealthMetrics.requests). -/
structure RequestStats where
  total : Int
  active : Int
  averageResponseTime : Int
deriving DecidableEq, Repr

/-- One timestamped metrics snapshot (types.ts HealthMetrics), the element
type of MonitoringService.metricsHistory.  The optional `database` field is
never produced by this repository and is omitted. -/
structure HealthMetrics where
  timestamp : Int
  uptime : Int
  memory : MemoryMetrics
  cpu : CpuMetrics
  process : ProcessMetrics
  requests : RequestStats
  errors : ErrorMetrics
deriving DecidableEq, Repr

/-- MonitoringService.startMetricsCollection's accumulation over a sequence of
collection ticks: starting from the empty history, each tick pushes the
collected snapshot and evicts the oldest entry once the length exceeds 100. -/
def runMetricsTicks (snaps : List HealthMetrics) : List HealthMetrics :=
  snaps.foldl boundedPush []

/-- ECMAScript `arr.slice(start)` with a single integer argument: a negative
start counts from the end (clamped below at 0, which `Int.toNat` performs), a
non-negative start drops that many leading elements (the spec's clamp of start
to at most `arr.length` does not change the result of the drop). -/
def jsSliceFrom {α : Type} (arr : List α) (start : Int) : List α :=
  if start < 0 then arr.drop ((arr.length : Int) + start).toNat
  else arr.drop start.toNat

/-- Shape of the metrics-history endpoint's response body. -/
structure MetricsHistoryResponse where
  metrics : List HealthMetrics
  count : Nat
  latest : Option HealthMetrics
deriving DecidableEq, Repr

/-- MonitoringService.metricsHistoryHandler: `parseInt(req.query.limit) || 50`
(`parsedLimit = none` models a NaN parse; 0 is falsy, so it also falls back to
50) followed by `metricsHistory.slice(-limit)`; `latest` is
`metrics[metrics.length - 1]`, i.e. the last element when one exists. -/
def metricsHistoryHandler (parsedLimit : Option Int)
    (history : List HealthMetrics) : MetricsHistoryResponse :=
  let limit : Int :=
    match parsedLimit with
    | none => 50
    | some n => if n = 0 then 50 else n
  let metrics := jsSliceFrom history (-limit)
  { metrics := metrics
    count := metrics.length
    latest := metrics.getLast? }

/-- A concrete snapshot used to instantiate theorems on explicit inputs. -/
def sampleMetrics : HealthMetrics :=
  { timestamp := 1640995200000
    uptime := 3600
    memory :=
      { used := 45, total := 1024, percentage := 4
        heap := { used := 25, total := 30, percentage := 83 } }
    cpu := { usage := 31 / 2, loadAverage := [1 / 2, 3 / 10, 1 / 5] }
    process := { pid := 12345, version := "v18.17.0", platform := "linux", arch := "x64" }
    requests := { total := 150, active := 2, averageResponseTime := 120 }
    errors := { total := 5, rate := 1 / 5 } }

/-- Failure cause carried by a rejected probe check: the scheduler reads
`error.message` when the thrown value is an Error and otherwise uses
"Unknown error". -/
def errorCauseMessage : Option String → String
  | some m => m
  | none => "Unknown error"

/-- Outcome of awaiting one probe check: a ProbeResult, or a rejection with an
optional Error message. -/
abbrev ProbeOutcome := Except (Option String) ProbeResult

/-- Association-list update with JavaScript `Map.set` semantics: overwrite the
entry for the key if present (keeping its position), otherwise append. -/
def mapSet : ProbeTable → String → ProbeResult → ProbeTable
  | [], k, v => [(k, v)]
  | p :: rest, k, v =>
      if p.1 = k then (k, v) :: rest else p :: mapSet rest k v

/-- Association-list lookup with JavaScript `Map.get` semantics. -/
def mapGet : ProbeTable → String → Option ProbeResult
  | [], _ => none
  | p :: rest, k => if p.1 = k then some p.2 else mapGet rest k

/-- One scheduled execution of a probe, the `executeProbe` closure shared by
startProbeExecution and addProbe: on success store the returned result under
the probe's name; on failure store a synthetic critical result whose message
is "Probe execution failed: " followed by the cause.  Total in the outcome, so
no rejection escapes to the registering caller. -/
def executeProbeStep (name : String) (outcome : ProbeOutcome)
    (results : ProbeTable) : ProbeTable :=
  match outcome with
  | Except.ok r => mapSet results name r
  | Except.error e =>
      mapSet results name
        { status := ProbeStatus.critical
          message := some ("Probe execution failed: " ++ errorCauseMessage e) }

/-- C1: getOverallStatus obeys strict severity dominance on every probe-result
table: it is critical iff some result is critical; warning iff none is
critical and some result is warning; healthy iff no result is critical or
warning.  In particular it is deterministic in the multiset of statuses. -/
theorem getOverallStatus_severity_dominance (probes : ProbeTable) :
    (getOverallStatus probes = ProbeStatus.critical ↔
      ∃ p ∈ probes, p.2.status = ProbeStatus.critical)
    ∧ (getOverallStatus probes = ProbeStatus.warning ↔
      (¬ ∃ p ∈ probes, p.2.status = ProbeStatus.critical)
        ∧ ∃ p ∈ probes, p.2.status = ProbeStatus.warning)
    ∧ (getOverallStatus probes = ProbeStatus.healthy ↔
      (¬ ∃ p ∈ probes, p.2.status = ProbeStatus.critical)
        ∧ ¬ ∃ p ∈ probes, p.2.status = ProbeStatus.warning) := by
  have hmem : ∀ x : ProbeStatus,
      (x ∈ probes.map fun p => p.2.status) ↔ ∃ p ∈ probes, p.2.status = x := by
    intro x
    simp [List.mem_map]
  simp only [getOverallStatus]
  split_ifs with hc hw
  · exact ⟨iff_of_true rfl ((hmem _).mp hc),
      iff_of_false (by decide) fun h => h.1 ((hmem _).mp hc),
      iff_of_false (by decide) fun h => h.1 ((hmem _).mp hc)⟩
  · exact ⟨iff_of_false (by decide) fun h => hc ((hmem _).mpr h),
      iff_of_true rfl ⟨fun h => hc ((hmem _).mpr h), (hmem _).mp hw⟩,
      iff_of_false (by decide) fun h => h.2 ((hmem _).mp hw)⟩
  · exact ⟨iff_of_false (by decide) fun h => hc ((hmem _).mpr h),
      iff_of_false (by decide) fun h => hw ((hmem _).mpr h.2),
      iff_of_true rfl ⟨fun h => hc ((hmem _).mpr h), fun h => hw ((hmem _).mpr h)⟩⟩

/-- C9: on an empty probe-result table (no probe has stored a result yet)
getOverallStatus is healthy, so the health endpoint answers HTTP 200. -/
theorem emptyProbeTable_healthy_200 :
    getOverallStatus ([] : ProbeTable) = ProbeStatus.healthy
    ∧ healthHttpStatus (getOverallStatus ([] : ProbeTable)) = 200 := by
  constructor <;> rfl

/-- C10: endRequest's state transition is independent of the requestId token —
any two tokens (issued or not) with the same startTime and current time
produce identical states — and it always decrements the active counter by one
and pushes the elapsed time onto the latency window, with no validation of the
token. -/
theorem endRequest_ignores_requestId (id1 id2 : String) (startTime now : Int)
    (t : RequestTracker) :
    t.endRequest id1 startTime now = t.endRequest id2 startTime now
    ∧ (t.endRequest id1 startTime now).activeRequests = t.activeRequests - 1
    ∧ (t.endRequest id1 startTime now).requestTimes
        = boundedPush t.requestTimes (now - startTime) :=
  ⟨rfl, rfl, rfl⟩

/-- C4 counterexample: with threshold 80, a memory reading of 65 does not
yield a healthy result as claimed — 65 exceeds 0.8 × 80 = 64, so the probe
reports warning. -/
theorem memoryProbe_65_not_healthy :
    (memoryProbeCheck 80 65).status ≠ ProbeStatus.healthy
    ∧ (memoryProbeCheck 80 65).status = ProbeStatus.warning := by
  constructor <;> (norm_num [memoryProbeCheck]; all_goals decide)

/-- C4 amended: with threshold 80, a memory reading of 85 yields status
critical with value 85, and a reading of 65 yields status warning (not
healthy) with value 65. -/
theorem memoryProbe_threshold80_examples :
    (memoryProbeCheck 80 85).status = ProbeStatus.critical
    ∧ (memoryProbeCheck 80 85).value = some 85
    ∧ (memoryProbeCheck 80 65).status = ProbeStatus.warning
    ∧ (memoryProbeCheck 80 65).value = some 65 := by
  refine ⟨?_, ?_, ?_, ?_⟩ <;> norm_num [memoryProbeCheck]

/-- C5 counterexample: with threshold 0, a reading exactly equal to the
threshold yields healthy, not warning, for both the memory and the CPU probe —
the claim fails for threshold 0. -/
theorem probe_zero_threshold_not_warning :
    (memoryProbeCheck 0 0).status ≠ ProbeStatus.warning
    ∧ (cpuProbeCheck 0 0).status ≠ ProbeStatus.warning := by
  constructor <;> (norm_num [memoryProbeCheck, cpuProbeCheck]; all_goals decide)

/-- C5 amended: for every positive threshold t, a reading exactly equal to t
yields warning (critical needs a strictly greater reading) and a reading
exactly equal to 0.8 × t yields healthy (warning needs a strictly greater
reading), for both the memory and the CPU probe. -/
theorem probe_threshold_boundaries (t : ℚ) (ht : 0 < t) :
    (memoryProbeCheck t t).status = ProbeStatus.warning
    ∧ (memoryProbeCheck t (t * (8 / 10))).status = ProbeStatus.healthy
    ∧ (cpuProbeCheck t t).status = ProbeStatus.warning
    ∧ (cpuProbeCheck t (t * (8 / 10))).status = ProbeStatus.healthy := by
  refine ⟨?_, ?_, ?_, ?_⟩ <;>
    · simp only [memoryProbeCheck, cpuProbeCheck]
      split_ifs <;> first | rfl | (exfalso; linarith)

/-- C5 witness: the boundary behaviour instantiated at threshold 80 (readings
80 and 64). -/
theorem probe_threshold_boundaries_witness :
    (memoryProbeCheck 80 80).status = ProbeStatus.warning
    ∧ (memoryProbeCheck 80 (80 * (8 / 10))).status = ProbeStatus.healthy
    ∧ (cpuProbeCheck 80 80).status = ProbeStatus.warning
    ∧ (cpuProbeCheck 80 (80 * (8 / 10))).status = ProbeStatus.healthy :=
  probe_threshold_boundaries 80 (by norm_num)

/-- Running an event sequence changes the active counter by the number of
start calls minus the number of end calls. -/
theorem runEvents_activeRequests : ∀ (es : List TrackerEvent) (t : RequestTracker),
    (runEvents es t).activeRequests
      = t.activeRequests + countStart es - countEnd es
  | [], t => by simp [runEvents, countStart, countEnd]
  | TrackerEvent.startReq :: es, t => by
      have ih := runEvents_activeRequests es t.startRequest
      have hs : t.startRequest.activeRequests = t.activeRequests + 1 := rfl
      show (runEvents es t.startRequest).activeRequests = _
      rw [ih, hs]
      simp only [countStart, countEnd]
      omega
  | TrackerEvent.endReq id s n :: es, t => by
      have ih := runEvents_activeRequests es (t.endRequest id s n)
      have hs : (t.endRequest id s n).activeRequests = t.activeRequests - 1 := rfl
      show (runEvents es (t.endRequest id s n)).activeRequests = _
      rw [ih, hs]
      simp only [countStart, countEnd]
      omega

/-- C2 counterexample: calling endRequest once on a fresh RequestTracker (a
token that was never issued) drives the active counter to -1, so the counter
is not never-negative over arbitrary call sequences. -/
theorem requestTracker_endFirst_negative :
    (runEvents [TrackerEvent.endReq "r" 0 0] initialTracker).activeRequests < 0 := by
  simp [runEvents, applyEvent, RequestTracker.endRequest, initialTracker]

/-- C2 amended: after any finite sequence of startRequest/endRequest calls on
a fresh RequestTracker the active counter equals the number of start calls
minus the number of end calls (as integers); and whenever every prefix of the
sequence has at least as many start calls as end calls, the counter is
non-negative at every point of the run. -/
theorem requestTracker_active_balance (es : List TrackerEvent) :
    (runEvents es initialTracker).activeRequests
      = (countStart es : Int) - countEnd es
    ∧ ((∀ n, n ≤ es.length →
          (countEnd (es.take n) : Int) ≤ countStart (es.take n)) →
        ∀ n, 0 ≤ (runEvents (es.take n) initialTracker).activeRequests) := by
  have h0 : initialTracker.activeRequests = 0 := rfl
  constructor
  · have h := runEvents_activeRequests es initialTracker
    omega
  · intro hpre n
    have h := runEvents_activeRequests (es.take n) initialTracker
    rcases le_or_lt n es.length with hn | hn
    · have := hpre n hn
      omega
    · have htake : es.take n = es := List.take_of_length_le (le_of_lt hn)
      have := hpre es.length le_rfl
      rw [List.take_length] at this
      rw [htake] at h ⊢
      omega

/-- C2 witness: the balance equation and non-negativity instantiated on the
two-event sequence start-then-end. -/
theorem requestTracker_active_balance_witness :
    (runEvents [TrackerEvent.startReq, TrackerEvent.endReq "r" 0 5]
        initialTracker).activeRequests
      = (countStart [TrackerEvent.startReq, TrackerEvent.endReq "r" 0 5] : Int)
        - countEnd [TrackerEvent.startReq, TrackerEvent.endReq "r" 0 5]
    ∧ 0 ≤ (runEvents ([TrackerEvent.startReq,
        TrackerEvent.endReq "r" 0 5].take 1) initialTracker).activeRequests := by
  refine ⟨(requestTracker_active_balance _).1,
    (requestTracker_active_balance _).2 ?_ 1⟩
  intro n hn
  simp only [List.length_cons, List.length_nil] at hn
  interval_cases n <;> decide

/-- Folding boundedPush from the empty list keeps exactly the (at most) 100
most recent elements, in order. -/
theorem foldl_boundedPush_eq_drop {α : Type} (xs : List α) :
    xs.foldl boundedPush [] = xs.drop (xs.length - 100) := by
  induction xs using List.reverseRecOn with
  | nil => rfl
  | append_singleton xs x ih =>
      rw [List.foldl_append, List.foldl_cons, List.foldl_nil, ih]
      simp only [boundedPush, List.length_append, List.length_cons,
        List.length_drop, List.length_nil]
      rcases le_or_lt xs.length 99 with h | h
      · rw [if_neg (by omega)]
        have h0 : xs.length - 100 = 0 := by omega
        have h1 : xs.length + 1 - 100 = 0 := by omega
        rw [h0, h1, List.drop_zero, List.drop_zero]
      · rw [if_pos (by omega)]
        rw [← List.drop_append_of_le_length (by omega : xs.length - 100 ≤ xs.length)]
        rw [List.tail_drop]
        congr 1
        omega

/-- C3: over every sequence of collection ticks the metrics history holds
exactly the most recent (at most 100) snapshots in append order — once more
than 100 snapshots have been appended the oldest are evicted first — and its
length never exceeds 100. -/
theorem metricsHistory_capacity (snaps : List HealthMetrics) :
    runMetricsTicks snaps = snaps.drop (snaps.length - 100)
    ∧ (runMetricsTicks snaps).length = min snaps.length 100
    ∧ (runMetricsTicks snaps).length ≤ 100 := by
  have h : runMetricsTicks snaps = snaps.drop (snaps.length - 100) :=
    foldl_boundedPush_eq_drop snaps
  refine ⟨h, ?_, ?_⟩ <;> rw [h, List.length_drop] <;> omega

/-- C6 counterexample: with one stored snapshot, the query limit -5 yields an
empty metrics list, while the default-50 path (a non-numeric limit) returns
the snapshot — so a negative limit neither falls back to 50 nor avoids an
empty result. -/
theorem metricsHistory_negative_limit_empty :
    (metricsHistoryHandler (some (-5)) [sampleMetrics]).metrics = []
    ∧ (metricsHistoryHandler none [sampleMetrics]).metrics = [sampleMetrics] := by
  constructor <;> rfl

/-- C6 amended: a non-numeric or zero limit falls back to the default of 50
most-recent snapshots; a positive limit n returns the n most-recent snapshots;
but a negative limit n is passed through to `slice(-limit)` and instead drops
the |n| oldest snapshots, which can leave an empty result. -/
theorem metricsHistory_limit_behavior (history : List HealthMetrics) :
    (metricsHistoryHandler none history).metrics
      = history.drop (history.length - 50)
    ∧ (metricsHistoryHandler (some 0) history).metrics
      = history.drop (history.length - 50)
    ∧ (∀ n : Int, 0 < n → (metricsHistoryHandler (some n) history).metrics
      = history.drop (history.length - n.toNat))
    ∧ (∀ n : Int, n < 0 → (metricsHistoryHandler (some n) history).metrics
      = history.drop (-n).toNat) := by
  refine ⟨?_, ?_, ?_, ?_⟩
  · show jsSliceFrom history (-(50 : Int)) = _
    unfold jsSliceFrom
    rw [if_pos (by norm_num)]
    congr 1
    omega
  · show jsSliceFrom history (-(50 : Int)) = _
    unfold jsSliceFrom
    rw [if_pos (by norm_num)]
    congr 1
    omega
  · intro n hn
    show jsSliceFrom history (-(if n = 0 then (50 : Int) else n)) = _
    rw [if_neg (by omega : ¬ n = 0)]
    unfold jsSliceFrom
    rw [if_pos (by omega : -n < 0)]
    congr 1
    omega
  · intro n hn
    show jsSliceFrom history (-(if n = 0 then (50 : Int) else n)) = _
    rw [if_neg (by omega : ¬ n = 0)]
    unfold jsSliceFrom
    rw [if_neg (by omega : ¬ -n < 0)]

/-- C6 witness: the limit handling instantiated on a one-snapshot history with
a missing limit, the positive limit 2 and the negative limit -1. -/
theorem metricsHistory_limit_behavior_witness :
    (metricsHistoryHandler none [sampleMetrics]).metrics
      = [sampleMetrics].drop ([sampleMetrics].length - 50)
    ∧ (metricsHistoryHandler (some 2) [sampleMetrics]).metrics
      = [sampleMetrics].drop ([sampleMetrics].length - (2 : Int).toNat)
    ∧ (metricsHistoryHandler (some (-1)) [sampleMetrics]).metrics
      = [sampleMetrics].drop (-(-1 : Int)).toNat :=
  ⟨(metricsHistory_limit_behavior [sampleMetrics]).1,
    (metricsHistory_limit_behavior [sampleMetrics]).2.2.1 2 (by norm_num),
    (metricsHistory_limit_behavior [sampleMetrics]).2.2.2 (-1) (by norm_num)⟩

/-- Looking up the key just written by mapSet returns the written value. -/
theorem mapGet_mapSet_self (m : ProbeTable) (k : String) (v : ProbeResult) :
    mapGet (mapSet m k v) k = some v := by
  induction m with
  | nil => simp [mapSet, mapGet]
  | cons p rest ih =>
      by_cases hp : p.1 = k
      · simp [mapSet, if_pos hp, mapGet]
      · simp only [mapSet, if_neg hp, mapGet, if_neg hp, ih]

/-- Looking up any other key after mapSet is unchanged. -/
theorem mapGet_mapSet_other (m : ProbeTable) (k k' : String) (v : ProbeResult)
    (h : k' ≠ k) : mapGet (mapSet m k v) k' = mapGet m k' := by
  induction m with
  | nil =>
      simp only [mapSet, mapGet]
      rw [if_neg h.symm]
  | cons p rest ih =>
      by_cases hp : p.1 = k
      · simp only [mapSet, if_pos hp, mapGet]
        rw [if_neg h.symm, if_neg (by rw [hp]; exact h.symm)]
      · simp only [mapSet, if_neg hp, mapGet]
        by_cases hp' : p.1 = k'
        · rw [if_pos hp', if_pos hp']
        · rw [if_neg hp', if_neg hp', ih]

/-- C7: when a probe's check throws or rejects with cause e, the scheduled
execution stores under that probe's name a critical ProbeResult whose message
is "Probe execution failed: " followed by the cause (or "Unknown error" when
the thrown value carries no message); executeProbeStep is total, so the
rejection never escapes to the caller that registered the probe; and the
stored result of every other probe is unchanged. -/
theorem probeFailure_stores_critical_isolated (name : String)
    (e : Option String) (results : ProbeTable) :
    mapGet (executeProbeStep name (Except.error e) results) name
      = some { status := ProbeStatus.critical
               message := some ("Probe execution failed: " ++ errorCauseMessage e)
               value := none }
    ∧ ∀ k, k ≠ name →
        mapGet (executeProbeStep name (Except.error e) results) k
          = mapGet results k := by
  constructor
  · exact mapGet_mapSet_self results name _
  · intro k hk
    exact mapGet_mapSet_other results name k _ hk

/-- C7 witness: a probe named db rejecting with message boom is recorded as a
critical result while the stored result of the cpu_usage probe is unchanged. -/
theorem probeFailure_stores_critical_isolated_witness :
    mapGet (executeProbeStep "db" (Except.error (some "boom"))
        [("cpu_usage", { status := ProbeStatus.healthy })]) "db"
      = some { status := ProbeStatus.critical
               message := some ("Probe execution failed: "
                 ++ errorCauseMessage (some "boom"))
               value := none }
    ∧ mapGet (executeProbeStep "db" (Except.error (some "boom"))
        [("cpu_usage", { status := ProbeStatus.healthy })]) "cpu_usage"
      = mapGet [("cpu_usage", { status := ProbeStatus.healthy })] "cpu_usage" :=
  ⟨(probeFailure_stores_critical_isolated "db" (some "boom") _).1,
    (probeFailure_stores_critical_isolated "db" (some "boom") _).2
      "cpu_usage" (by decide)⟩

/-- A tracker with two completed requests of latency 0 and 1 ms, used to
instantiate the getMetrics theorems. -/
def sampleTracker : RequestTracker := { initialTracker with requestTimes := [0, 1] }

/-- C8 counterexample: for a latency window [0, 1] the arithmetic mean is 1/2,
but getMetrics reports 1 (Math.round of the mean), so averageResponseTime does
not equal the arithmetic mean. -/
theorem getMetrics_average_rounded_counterexample :
    (sampleTracker.getMetrics 0).averageResponseTime = 1
    ∧ ((sampleTracker.getMetrics 0).averageResponseTime : ℚ)
        ≠ (sampleTracker.requestTimes.sum : ℚ)
          / (sampleTracker.requestTimes.length : ℚ) := by
  constructor
  · norm_num [sampleTracker, initialTracker, RequestTracker.getMetrics, jsRound]
  · norm_num [sampleTracker, initialTracker, RequestTracker.getMetrics, jsRound]

/-- C8 amended: getMetrics reports averageResponseTime equal to Math.round of
the arithmetic mean of the latency window — half-up rounding, so it lies
within (mean - 1/2, mean + 1/2] — and 0 when the window is empty; and reports
errors.rate equal to the count of stored error timestamps strictly inside the
trailing 5-minute window, divided by 5. -/
theorem getMetrics_average_and_errorRate (t : RequestTracker) (now : Int) :
    (t.requestTimes = [] → (t.getMetrics now).averageResponseTime = 0)
    ∧ (t.requestTimes ≠ [] →
        (t.getMetrics now).averageResponseTime
          = jsRound ((t.requestTimes.sum : ℚ) / (t.requestTimes.length : ℚ))
        ∧ -(1 / 2 : ℚ) < ((t.getMetrics now).averageResponseTime : ℚ)
            - (t.requestTimes.sum : ℚ) / (t.requestTimes.length : ℚ)
        ∧ ((t.getMetrics now).averageResponseTime : ℚ)
            - (t.requestTimes.sum : ℚ) / (t.requestTimes.length : ℚ) ≤ 1 / 2)
    ∧ (t.getMetrics now).errors.rate
      = ((t.errorTimes.filter fun time => now - 5 * 60 * 1000 < time).length : ℚ)
        / 5 := by
  refine ⟨?_, ?_, rfl⟩
  · intro h
    simp only [RequestTracker.getMetrics, h]
    rfl
  · intro h
    have hlen : 0 < t.requestTimes.length := List.length_pos.mpr h
    have havg : (t.getMetrics now).averageResponseTime
        = jsRound ((t.requestTimes.sum : ℚ) / (t.requestTimes.length : ℚ)) := by
      simp only [RequestTracker.getMetrics]
      rw [if_pos hlen]
    refine ⟨havg, ?_, ?_⟩ <;> rw [havg] <;> unfold jsRound
    · have := Int.sub_one_lt_floor
        ((t.requestTimes.sum : ℚ) / (t.requestTimes.length : ℚ) + 1 / 2)
      push_cast at this ⊢
      linarith
    · have := Int.floor_le
        ((t.requestTimes.sum : ℚ) / (t.requestTimes.length : ℚ) + 1 / 2)
      push_cast at this ⊢
      linarith

/-- C8 witness: the rounded-mean equation on the window [0, 1], the empty-
window zero on a fresh tracker, and the error rate on a fresh tracker. -/
theorem getMetrics_average_and_errorRate_witness :
    (sampleTracker.getMetrics 0).averageResponseTime
      = jsRound ((sampleTracker.requestTimes.sum : ℚ)
          / (sampleTracker.requestTimes.length : ℚ))
    ∧ (initialTracker.getMetrics 0).averageResponseTime = 0
    ∧ (initialTracker.getMetrics 0).errors.rate
      = ((initialTracker.errorTimes.filter
            fun time => (0 : Int) - 5 * 60 * 1000 < time).length : ℚ) / 5 :=
  ⟨((getMetrics_average_and_errorRate sampleTracker 0).2.1 (by decide)).1,
    (getMetrics_average_and_errorRate initialTracker 0).1 rfl,
    (getMetrics_average_and_errorRate initialTracker 0).2.2⟩

end NodeMonitoring
